import Mathlib

/-!
Verification development for the Task Manager Flask backend
(`src/app/backend/app.py`): a shallow embedding of the task and category
stores and their HTTP handlers, together with theorems settling the
specification claims.

Modelling conventions:
* timestamps (`datetime` values) are abstract clock readings, embedded as
  `Nat`; each handler takes the current time `now` as a parameter
  (standing for `datetime.utcnow()` / column defaults evaluated at the
  same insert);
* the standard-library ISO-8601 parser `datetime.fromisoformat` is not
  repository code, so handlers are parameterised over
  `parse : String → Option Nat` (`none` = `ValueError`);
* JSON bodies are embedded field by field; a field of type `Option JStr`
  distinguishes absent (`none`), present-null (`some .null`) and
  present-string (`some (.str s)`), which is exactly the granularity the
  Python truthiness tests (`if data.get(k):`, `if data[k]:`) observe.
  Non-string, non-null, non-boolean JSON values are outside the model;
* nullable database columns are `Option String` / `Option Nat` fields;
* the blanket `except Exception` handlers in `update_task`, `delete_task`
  and `create_category` are embedded faithfully: they catch the
  `NotFound` HTTP exception raised by `get_or_404`, the `ValueError`
  raised by `fromisoformat`, and the `IntegrityError` raised at commit
  by the UNIQUE constraint, roll back, and return status 500. Error
  message strings are abbreviated.
-/

namespace TaskManager

/-- A JSON value that is either `null` or a string, as observed by the
truthiness tests of the handlers and string operations. -/
inductive JStr where
  | null : JStr
  | str : String → JStr
  deriving DecidableEq, Repr

/-- Python truthiness of a null-or-string JSON value: `None` and `""` are
falsy, every other string is truthy. -/
def JStr.truthy : JStr → Bool
  | JStr.null => false
  | JStr.str s => s != ""

/-- The underlying string of a null-or-string value (only used under a
`truthy` guard, where the value is a non-empty string). -/
def JStr.getStr : JStr → String
  | JStr.null => ""
  | JStr.str s => s

/-- Python `data.get(key, default)`: absent keys yield the default, a present
`null` yields `None` (stored as SQL NULL), a present string is kept. -/
def pyGet (x : Option JStr) (dflt : Option String) : Option String :=
  match x with
  | none => dflt
  | some JStr.null => none
  | some (JStr.str s) => some s

/-- Character-level replacement of every `Z` by `+00:00`. -/
def replaceZList : List Char → List Char
  | [] => []
  | c :: t =>
    if c = 'Z' then '+' :: '0' :: '0' :: ':' :: '0' :: '0' :: replaceZList t
    else c :: replaceZList t

/-- Python `str.replace` of every `Z` by `+00:00`; the pattern is a
single character, so character-by-character replacement is exact. -/
def pyReplaceZ (s : String) : String := String.mk (replaceZList s.toList)

/-- ASCII lower-casing of one character (the case folding that the SQLite
`LIKE` and the `.lower()` comparison in the handler rely on for the
inputs the claims mention). -/
def asciiLower (c : Char) : Char :=
  if 'A' ≤ c ∧ c ≤ 'Z' then Char.ofNat (c.toNat + 32) else c

/-- ASCII `s.lower()`. -/
def pyLower (s : String) : String := String.mk (s.toList.map asciiLower)

/-- The `Task` model (app.py lines 42-52). Nullable columns are `Option`;
`title` is NOT NULL. -/
structure Task where
  id : Nat
  title : String
  description : Option String
  completed : Bool
  priority : Option String
  category : Option String
  due_date : Option Nat
  created_at : Nat
  updated_at : Nat
  deriving DecidableEq, Repr

/-- The tasks table plus the autoincrement counter for primary keys. -/
structure TaskStore where
  tasks : List Task
  nextId : Nat
  deriving DecidableEq, Repr

/-- Primary-key lookup, `Task.query.get(tid)`. -/
def TaskStore.find? (st : TaskStore) (tid : Nat) : Option Task :=
  st.tasks.find? (fun t => t.id == tid)

/-- Response of a single-task endpoint: HTTP status plus the JSON
envelope (`success`, optional `error`, optional serialized task). -/
structure TaskResp where
  status : Nat
  success : Bool
  error : Option String := none
  task : Option Task := none
  deriving DecidableEq, Repr

/-- Response of the list endpoint (`success`, `count`, `tasks`). -/
structure ListResp where
  success : Bool
  count : Nat
  tasks : List Task
  deriving DecidableEq, Repr

/-- Response of `/api/stats`. -/
structure StatsResp where
  total_tasks : Nat
  completed_tasks : Nat
  pending_tasks : Nat
  completion_rate : ℚ
  deriving DecidableEq, Repr

/-- JSON body of POST /api/tasks. -/
structure CreateBody where
  title : Option JStr := none
  description : Option JStr := none
  priority : Option JStr := none
  category : Option JStr := none
  due_date : Option JStr := none
  deriving DecidableEq, Repr

/-- JSON body of PUT /api/tasks/{id}. `title` is absent-or-string (a
JSON-null title would violate the NOT NULL constraint at commit and is
outside the model); `completed` is absent-or-boolean. -/
structure UpdateBody where
  title : Option String := none
  description : Option JStr := none
  completed : Option Bool := none
  priority : Option JStr := none
  category : Option JStr := none
  due_date : Option JStr := none
  deriving DecidableEq, Repr

/-- Embedding of `create_task` (POST /api/tasks, app.py lines 182-221).
`body = none` models `request.get_json()` yielding `None`; `parse`
stands for `datetime.fromisoformat`. -/
def create_task (parse : String → Option Nat) (st : TaskStore) (now : Nat)
    (body : Option CreateBody) : TaskResp × TaskStore :=
  match body with
  | none => ({ status := 400, success := false, error := some "Title is required" }, st)
  | some data =>
    let titleV := data.title.getD JStr.null
    if titleV.truthy then
      let mkTask : Option Nat → TaskResp × TaskStore := fun dd =>
        let t : Task :=
          { id := st.nextId
            title := titleV.getStr
            description := pyGet data.description (some "")
            completed := false
            priority := pyGet data.priority (some "medium")
            category := pyGet data.category (some "general")
            due_date := dd
            created_at := now
            updated_at := now }
        ({ status := 201, success := true, task := some t },
         { tasks := st.tasks ++ [t], nextId := st.nextId + 1 })
      let ddV := data.due_date.getD JStr.null
      if ddV.truthy then
        match parse (pyReplaceZ ddV.getStr) with
        | none => ({ status := 400, success := false, error := some "Invalid date format" }, st)
        | some d => mkTask (some d)
      else
        mkTask none
    else
      ({ status := 400, success := false, error := some "Title is required" }, st)

/-- Embedding of `update_task` (PUT /api/tasks/{id}, app.py lines
223-259). The `NotFound` raised by `get_or_404` and the `ValueError`
raised by `fromisoformat` are both caught by the blanket
`except Exception` of the handler, which rolls back and returns status 500. -/
def update_task (parse : String → Option Nat) (st : TaskStore) (now : Nat)
    (tid : Nat) (body : Option UpdateBody) : TaskResp × TaskStore :=
  match st.find? tid with
  | none => ({ status := 500, success := false, error := some "404 Not Found" }, st)
  | some t0 =>
    match body with
    | none => ({ status := 500, success := false, error := some "TypeError" }, st)
    | some data =>
      let t1 := match data.title with
        | some s => { t0 with title := s }
        | none => t0
      let t2 := match data.description with
        | some v => { t1 with description := pyGet (some v) none }
        | none => t1
      let t3 := match data.completed with
        | some b => { t2 with completed := b }
        | none => t2
      let t4 := match data.priority with
        | some v => { t3 with priority := pyGet (some v) none }
        | none => t3
      let t5 := match data.category with
        | some v => { t4 with category := pyGet (some v) none }
        | none => t4
      let finish : Task → TaskResp × TaskStore := fun t =>
        let tU := { t with updated_at := now }
        ({ status := 200, success := true, task := some tU },
         { st with tasks := st.tasks.map (fun u => if u.id == tid then tU else u) })
      match data.due_date with
      | none => finish t5
      | some v =>
        if v.truthy then
          match parse (pyReplaceZ v.getStr) with
          | none => ({ status := 500, success := false, error := some "ValueError: Invalid isoformat string" }, st)
          | some d => finish { t5 with due_date := some d }
        else
          finish { t5 with due_date := none }

/-- Whether `p` occurs as a contiguous sublist of the second list (the
literal substring test; the specification wording for `search`). -/
def listInfixB (p : List Char) : List Char → Bool
  | [] => p.isEmpty
  | b :: t => p.isPrefixOf (b :: t) || listInfixB p t

/-- All suffixes of a list, longest first, ending with the empty one. -/
def suffixes : List Char → List (List Char)
  | [] => [[]]
  | c :: t => (c :: t) :: suffixes t

/-- Matching of a SQL LIKE pattern against a string, both as character
lists: a percent sign in the pattern matches any sequence (it matches
the rest of the pattern against every suffix), an underscore matches
exactly one character, and any other pattern character matches one
equal character. -/
def likeMatch : List Char → List Char → Bool
  | [], s => s.isEmpty
  | c :: p, s =>
    if c = '%' then (suffixes s).any (fun t => likeMatch p t)
    else
      match s with
      | [] => false
      | d :: t => (if c = '_' then true else c == d) && likeMatch p t

/-- The filter generated by `Column.contains(search)`: the SQL pattern
match `LIKE percent-search-percent` with autoescape off, so a percent
sign or an underscore inside the search value acts as a live wildcard;
the SQLite `LIKE` is ASCII-case-insensitive, modelled by case-folding
both sides. -/
def sqlLike (s pat : String) : Bool :=
  likeMatch ('%' :: (pat.toList.map asciiLower ++ ['%'])) (s.toList.map asciiLower)

/-- The `search` disjunct on the nullable `description` column: a SQL
NULL never matches `LIKE`. -/
def descLike (d : Option String) (pat : String) : Bool :=
  match d with
  | some s => sqlLike s pat
  | none => false

/-- SQL `ORDER BY created_at DESC` as a relation on tasks. -/
def createdDesc (a b : Task) : Prop := b.created_at ≤ a.created_at

instance : DecidableRel createdDesc := fun _ _ => Nat.decLe _ _

instance : IsTotal Task createdDesc :=
  ⟨fun a b => Nat.le_total b.created_at a.created_at⟩

instance : IsTrans Task createdDesc :=
  ⟨fun _ _ _ h1 h2 => Nat.le_trans h2 h1⟩

/-- Sorting a result set by `created_at` descending. -/
def sortDesc (l : List Task) : List Task := List.insertionSort createdDesc l

/-- The filter chain of `get_tasks` (app.py lines 150-160): each query
parameter contributes a `filter_by`/`filter` stage, skipped when the
parameter is absent (`None`) — or, for `category`, `priority` and
`search`, also when it is the empty string (Python truthiness); the
`completed` stage runs whenever the parameter is present (`is not None`)
and compares the lower-cased value with the word true. -/
def applyFilters (l : List Task)
    (category priority completed search : Option String) : List Task :=
  let q := l
  let q := match category with
    | some c => if c = "" then q else q.filter (fun t => t.category == some c)
    | none => q
  let q := match priority with
    | some p => if p = "" then q else q.filter (fun t => t.priority == some p)
    | none => q
  let q := match completed with
    | some s => q.filter (fun t => t.completed == (pyLower s == "true"))
    | none => q
  let q := match search with
    | some s => if s = "" then q
                else q.filter (fun t => sqlLike t.title s || descLike t.description s)
    | none => q
  q

/-- Embedding of `get_tasks` (GET /api/tasks, app.py lines 140-171). -/
def get_tasks (st : TaskStore)
    (category priority completed search : Option String) : ListResp :=
  let ts := sortDesc (applyFilters st.tasks category priority completed search)
  { success := true, count := ts.length, tasks := ts }

/-- Round-half-even to the nearest integer, as the Python built-in
`round` performs on the exact value. -/
def pyRoundHalfEven (x : ℚ) : ℤ :=
  let f := ⌊x⌋
  let r := x - (f : ℚ)
  if r < 1/2 then f
  else if 1/2 < r then f + 1
  else if f % 2 = 0 then f else f + 1

/-- Python `round(x, 2)`: round to two decimal places. The model rounds the
exact rational; Python rounds the nearest binary double, which agrees
for every feasible task count. -/
def pyRound2 (x : ℚ) : ℚ := (pyRoundHalfEven (x * 100) : ℚ) / 100

/-- Embedding of `stats` (GET /api/stats, app.py lines 124-136). -/
def stats (st : TaskStore) : StatsResp :=
  let total := st.tasks.length
  let completed := (st.tasks.filter (fun t => t.completed)).length
  { total_tasks := total
    completed_tasks := completed
    pending_tasks := total - completed
    completion_rate := pyRound2 (if 0 < total then (completed : ℚ) / (total : ℚ) * 100 else 0) }

/-- The `Category` model (app.py lines 68-73): `name` is NOT NULL and
UNIQUE, `color` is a nullable 7-character color code. -/
structure Category where
  id : Nat
  name : String
  color : Option String
  created_at : Nat
  deriving DecidableEq, Repr

/-- The categories table plus the autoincrement counter. -/
structure CategoryStore where
  cats : List Category
  nextId : Nat
  deriving DecidableEq, Repr

/-- JSON body of POST /api/categories. -/
structure CatBody where
  name : Option JStr := none
  color : Option JStr := none
  deriving DecidableEq, Repr

/-- Response of a category endpoint. -/
structure CatResp where
  status : Nat
  success : Bool
  error : Option String := none
  category : Option Category := none
  deriving DecidableEq, Repr

/-- Embedding of `create_category` (POST /api/categories, app.py lines
291-314). The handler performs no duplicate check itself; committing a
duplicate `name` violates the UNIQUE constraint, and the resulting
`IntegrityError` is caught by the blanket `except Exception`, which
rolls back and returns status 500 with the driver message. -/
def create_category (st : CategoryStore) (now : Nat)
    (body : Option CatBody) : CatResp × CategoryStore :=
  match body with
  | none => ({ status := 400, success := false, error := some "Name is required" }, st)
  | some data =>
    let nameV := data.name.getD JStr.null
    if nameV.truthy then
      if st.cats.any (fun d => d.name == nameV.getStr) then
        ({ status := 500, success := false,
           error := some "UNIQUE constraint failed: category.name" }, st)
      else
        let c : Category :=
          { id := st.nextId
            name := nameV.getStr
            color := pyGet data.color (some "#3B82F6")
            created_at := now }
        ({ status := 201, success := true, category := some c },
         { cats := st.cats ++ [c], nextId := st.nextId + 1 })
    else
      ({ status := 400, success := false, error := some "Name is required" }, st)

/-- Modelled from the spec: a concrete stand-in for the Python
standard-library ISO-8601 parser `datetime.fromisoformat`, which is not
repository code. It accepts exactly `YYYY-MM-DD` digit strings
(encoding them as the digit value) and rejects everything else; it is
used only to instantiate witnesses and counterexamples at concrete
inputs on which the real parser and the stand-in agree. -/
def isoParseModel (s : String) : Option Nat :=
  match s.toList with
  | [y1, y2, y3, y4, '-', m1, m2, '-', d1, d2] =>
    if [y1, y2, y3, y4, m1, m2, d1, d2].all Char.isDigit then
      some ([y1, y2, y3, y4, m1, m2, d1, d2].foldl
        (fun n c => n * 10 + (c.toNat - 48)) 0)
    else none
  | _ => none

/-- Embedding of `delete_task` (DELETE /api/tasks/{id}, app.py lines
261-278). The `NotFound` raised by `get_or_404` is caught by the blanket
`except Exception`, which rolls back and returns status 500. -/
def delete_task (st : TaskStore) (tid : Nat) : TaskResp × TaskStore :=
  match st.find? tid with
  | none => ({ status := 500, success := false, error := some "404 Not Found" }, st)
  | some _ =>
    ({ status := 200, success := true },
     { st with tasks := st.tasks.filter (fun u => u.id != tid) })

/-- A concrete task used by witnesses and concrete instances. -/
def demoTask (i : Nat) (c : Bool) : Task :=
  { id := i
    title := "task"
    description := some ""
    completed := c
    priority := some "medium"
    category := some "general"
    due_date := none
    created_at := i
    updated_at := i }

/-- A concrete store of three tasks, one of them completed. -/
def demo3 : TaskStore :=
  { tasks := [demoTask 1 true, demoTask 2 false, demoTask 3 false], nextId := 4 }

/-- A concrete store holding one task titled `abc`, used to exercise the
LIKE wildcards of the search filter. -/
def demoAbc : TaskStore :=
  { tasks := [{ id := 1, title := "abc", description := none, completed := false,
                priority := some "medium", category := some "general",
                due_date := none, created_at := 1, updated_at := 1 }],
    nextId := 2 }

/-- Rounding zero to two decimal places gives zero. -/
theorem pyRound2_zero : pyRound2 0 = 0 := by
  norm_num [pyRound2, pyRoundHalfEven]

/-- Two consecutive filters collapse to one filter by the conjunction. -/
theorem filter_pair (p q : α → Bool) (l : List α) :
    (l.filter p).filter q = l.filter (fun a => p a && q a) := by
  induction l with
  | nil => rfl
  | cons a l ih => cases hp : p a <;> cases hq : q a <;> simp [List.filter_cons, hp, hq, ih]

/-- Packing a codepoint below the surrogate range round-trips through
`Char.ofNat`. -/
theorem charOfNat_toNat (n : Nat) (h : n < 55296) : (Char.ofNat n).toNat = n := by
  unfold Char.ofNat
  rw [dif_pos (Or.inl h)]
  rfl

/-- ASCII case folding maps no character onto the LIKE wildcards. -/
theorem asciiLower_ne_wild (c : Char) (h1 : c ≠ '%') (h2 : c ≠ '_') :
    asciiLower c ≠ '%' ∧ asciiLower c ≠ '_' := by
  unfold asciiLower
  split
  · next hAZ =>
    obtain ⟨ha, hz⟩ := hAZ
    have h65 : 65 ≤ c.toNat := ha
    have h90 : c.toNat ≤ 90 := hz
    have hv : c.toNat + 32 < 55296 := by omega
    refine ⟨fun heq => ?_, fun heq => ?_⟩
    · have ht := congrArg Char.toNat heq
      rw [charOfNat_toNat _ hv] at ht
      have h37 : ('%').toNat = 37 := rfl
      rw [h37] at ht
      omega
    · have ht := congrArg Char.toNat heq
      rw [charOfNat_toNat _ hv] at ht
      have h95 : ('_').toNat = 95 := rfl
      rw [h95] at ht
      omega
  · exact ⟨h1, h2⟩

/-- The empty list is among the suffixes, so a bare percent pattern
always matches. -/
theorem suffixes_any_isEmpty (t : List Char) :
    (suffixes t).any (fun u => u.isEmpty) = true := by
  induction t with
  | nil => rfl
  | cons a t ih => simp [suffixes, ih]

/-- A wildcard-free pattern followed by a percent matches exactly the
lists it is a literal prefix of. -/
theorem likeMatch_append_percent (p : List Char)
    (hp : ∀ c ∈ p, c ≠ '%' ∧ c ≠ '_') :
    ∀ t, likeMatch (p ++ ['%']) t = p.isPrefixOf t := by
  induction p with
  | nil =>
    intro t
    show likeMatch ['%'] t = _
    simp [likeMatch, List.isPrefixOf]
    simpa [likeMatch] using suffixes_any_isEmpty t
  | cons c p ih =>
    have hc := hp c (List.mem_cons_self c p)
    have hp' : ∀ d ∈ p, d ≠ '%' ∧ d ≠ '_' :=
      fun d hd => hp d (List.mem_cons_of_mem c hd)
    intro t
    cases t with
    | nil => simp [likeMatch, hc.1, List.isPrefixOf]
    | cons d t' => simp [likeMatch, hc.1, hc.2, List.isPrefixOf, ih hp' t']

/-- Trying a literal prefix match at every suffix is the literal
substring test. -/
theorem suffixes_any_isPrefixOf (p : List Char) :
    ∀ str, (suffixes str).any (fun t => p.isPrefixOf t) = listInfixB p str := by
  intro str
  induction str with
  | nil => cases p <;> simp [suffixes, listInfixB, List.isPrefixOf]
  | cons a t ih => simp [suffixes, listInfixB, ih]

/-- On search values free of the two LIKE wildcards, the search filter
is exactly the case-insensitive literal substring test the
specification describes. -/
theorem sqlLike_wildcard_free (ttl s : String)
    (hs : ∀ c ∈ s.toList, c ≠ '%' ∧ c ≠ '_') :
    sqlLike ttl s = listInfixB (s.toList.map asciiLower) (ttl.toList.map asciiLower) := by
  have hmap : ∀ c ∈ s.toList.map asciiLower, c ≠ '%' ∧ c ≠ '_' := by
    intro c hc
    obtain ⟨d, hd, rfl⟩ := List.mem_map.mp hc
    exact asciiLower_ne_wild d (hs d hd).1 (hs d hd).2
  show likeMatch ('%' :: (s.toList.map asciiLower ++ ['%'])) (ttl.toList.map asciiLower) = _
  rw [show likeMatch ('%' :: (s.toList.map asciiLower ++ ['%'])) (ttl.toList.map asciiLower)
        = (suffixes (ttl.toList.map asciiLower)).any
            (fun t => likeMatch (s.toList.map asciiLower ++ ['%']) t) from by
      simp [likeMatch]]
  simp only [likeMatch_append_percent (s.toList.map asciiLower) hmap]
  exact suffixes_any_isPrefixOf _ _

/-- The specification reading of the List filters: one pass keeping
exactly the tasks that satisfy the conjunction of every provided
filter. -/
def taskMatches (category priority completed search : Option String) (t : Task) : Bool :=
  (((match category with
      | none => true
      | some c => t.category == some c) &&
    (match priority with
      | none => true
      | some p => t.priority == some p)) &&
   (match completed with
      | none => true
      | some s => t.completed == (pyLower s == "true"))) &&
  (match search with
    | none => true
    | some s => sqlLike t.title s || descLike t.description s)

/-- Under nonempty provided parameters, the filter chain of `get_tasks`
computes the single conjunction filter. -/
theorem applyFilters_eq_filter (l : List Task)
    (category priority completed search : Option String)
    (hc : ∀ c, category = some c → c ≠ "")
    (hp : ∀ p, priority = some p → p ≠ "")
    (hs : ∀ s, search = some s → s ≠ "") :
    applyFilters l category priority completed search =
      l.filter (taskMatches category priority completed search) := by
  unfold applyFilters taskMatches
  rcases category with _ | c <;> rcases priority with _ | p <;>
    rcases completed with _ | b <;> rcases search with _ | s <;>
    simp_all [filter_pair] <;>
    exact List.filter_congr
      (fun t _ => by simp [Bool.and_comm, Bool.and_left_comm, Bool.and_assoc])

/-- C4: creating a task from a body holding only a non-empty `title`
succeeds with status 201 and returns a record with
`priority="medium"`, `category="general"`, `completed=false`,
`description=""`, no due date, and `created_at = updated_at` (both the
insert time); the record is appended to the store. -/
theorem create_task_defaults (parse : String → Option Nat) (st : TaskStore)
    (now : Nat) (s : String) (hs : s ≠ "") :
    create_task parse st now (some { title := some (JStr.str s) }) =
      ({ status := 201, success := true,
         task := some { id := st.nextId, title := s, description := some "",
                        completed := false, priority := some "medium",
                        category := some "general", due_date := none,
                        created_at := now, updated_at := now } },
       { tasks := st.tasks ++
           [{ id := st.nextId, title := s, description := some "",
              completed := false, priority := some "medium",
              category := some "general", due_date := none,
              created_at := now, updated_at := now }],
         nextId := st.nextId + 1 }) := by
  simp [create_task, JStr.truthy, JStr.getStr, pyGet, bne_iff_ne, hs]

/-- Witness for C4 at a concrete store and title. -/
theorem create_task_defaults_witness :
    create_task isoParseModel demo3 9 (some { title := some (JStr.str "hello") }) =
      ({ status := 201, success := true,
         task := some { id := demo3.nextId, title := "hello", description := some "",
                        completed := false, priority := some "medium",
                        category := some "general", due_date := none,
                        created_at := 9, updated_at := 9 } },
       { tasks := demo3.tasks ++
           [{ id := demo3.nextId, title := "hello", description := some "",
              completed := false, priority := some "medium",
              category := some "general", due_date := none,
              created_at := 9, updated_at := 9 }],
         nextId := demo3.nextId + 1 }) :=
  create_task_defaults isoParseModel demo3 9 "hello" (by decide)

/-- C8: creating a task from an absent body, or from a body whose
`title` is absent, null or empty (all falsy under the title lookup),
fails with status 400 and leaves the store unchanged. -/
theorem create_task_missing_title (parse : String → Option Nat) (st : TaskStore)
    (now : Nat) (body : Option CreateBody)
    (h : ∀ data, body = some data → (data.title.getD JStr.null).truthy = false) :
    create_task parse st now body =
      ({ status := 400, success := false, error := some "Title is required" }, st) := by
  cases body with
  | none => rfl
  | some data => simp [create_task, h data rfl]

/-- Witness for C8 at an absent body and at an empty title. -/
theorem create_task_missing_title_witness :
    create_task isoParseModel demo3 9 none =
      ({ status := 400, success := false, error := some "Title is required" }, demo3) ∧
    create_task isoParseModel demo3 9 (some { title := some (JStr.str "") }) =
      ({ status := 400, success := false, error := some "Title is required" }, demo3) :=
  ⟨create_task_missing_title isoParseModel demo3 9 none (fun d hd => nomatch hd),
   create_task_missing_title isoParseModel demo3 9 (some { title := some (JStr.str "") })
     (fun d hd => by cases hd; decide)⟩

/-- C7 fails as stated: with the search value `a_c` — not a substring of
`abc`, case-folded or not — List nevertheless returns the task titled
`abc`, because the generated `LIKE` pattern (autoescape off) treats the
underscore in the search value as a single-character wildcard. -/
theorem get_tasks_search_wildcard :
    (get_tasks demoAbc none none none (some "a_c")).tasks = demoAbc.tasks ∧
    (get_tasks demoAbc none none none (some "a_c")).count = 1 ∧
    sqlLike "abc" "a_c" = true ∧
    listInfixB ("a_c".toList.map asciiLower) ("abc".toList.map asciiLower) = false ∧
    listInfixB "a_c".toList "abc".toList = false := by
  decide

/-- C7 as amended: for every store and every combination of provided
(nonempty) filters, List succeeds and returns exactly the tasks
satisfying the conjunction of all provided filters — `category` and
`priority` by exact match, `completed` by boolean equality with the
parsed parameter, `search` by the SQL LIKE match of
percent-search-percent against title or description (ASCII
case-insensitive; a percent sign or underscore in the search value acts
as a wildcard) — ordered by `created_at` descending, with `count` the
size of the returned set; on search values containing neither wildcard
character the search filter coincides with the claimed case-insensitive
literal substring match. -/
theorem get_tasks_correct (st : TaskStore)
    (category priority completed search : Option String)
    (hc : ∀ c, category = some c → c ≠ "")
    (hp : ∀ p, priority = some p → p ≠ "")
    (hs : ∀ s, search = some s → s ≠ "") :
    (get_tasks st category priority completed search).success = true ∧
    (get_tasks st category priority completed search).count =
      (get_tasks st category priority completed search).tasks.length ∧
    (get_tasks st category priority completed search).tasks.Perm
      (st.tasks.filter (taskMatches category priority completed search)) ∧
    List.Sorted createdDesc (get_tasks st category priority completed search).tasks ∧
    (∀ s, search = some s → (∀ c ∈ s.toList, c ≠ '%' ∧ c ≠ '_') →
      ∀ ttl : String, sqlLike ttl s =
        listInfixB (s.toList.map asciiLower) (ttl.toList.map asciiLower)) := by
  refine ⟨rfl, rfl, ?_, ?_, ?_⟩
  · show (sortDesc (applyFilters st.tasks category priority completed search)).Perm _
    rw [applyFilters_eq_filter st.tasks category priority completed search hc hp hs]
    exact List.perm_insertionSort createdDesc _
  · exact List.sorted_insertionSort createdDesc _
  · exact fun s _ hw ttl => sqlLike_wildcard_free ttl s hw

/-- Witness for C7 at a concrete store and filter combination. -/
theorem get_tasks_correct_witness :
    (get_tasks demo3 (some "general") none (some "true") (some "ask")).success = true ∧
    (get_tasks demo3 (some "general") none (some "true") (some "ask")).count =
      (get_tasks demo3 (some "general") none (some "true") (some "ask")).tasks.length ∧
    (get_tasks demo3 (some "general") none (some "true") (some "ask")).tasks.Perm
      (demo3.tasks.filter (taskMatches (some "general") none (some "true") (some "ask"))) ∧
    List.Sorted createdDesc
      (get_tasks demo3 (some "general") none (some "true") (some "ask")).tasks ∧
    sqlLike "Task" "ask" =
      listInfixB ("ask".toList.map asciiLower) ("Task".toList.map asciiLower) := by
  have h := get_tasks_correct demo3 (some "general") none (some "true") (some "ask")
    (fun c hcc => by cases hcc; decide) (fun p hpp => nomatch hpp)
    (fun s hss => by cases hss; decide)
  exact ⟨h.1, h.2.1, h.2.2.1, h.2.2.2.1,
    h.2.2.2.2 "ask" rfl (by decide) "Task"⟩

/-- C9: whenever the `completed` query parameter is present with any
value (including the empty string), the applied filter is
`completed == (value lowercased equals "true")`; any value whose
lower-casing is not `"true"` therefore selects the not-completed tasks;
only an absent parameter skips the filter. -/
theorem get_tasks_completed_param (st : TaskStore) (s : String) :
    (get_tasks st none none (some s) none).tasks =
      sortDesc (st.tasks.filter (fun t => t.completed == (pyLower s == "true"))) ∧
    (pyLower s ≠ "true" →
      (get_tasks st none none (some s) none).tasks =
        sortDesc (st.tasks.filter (fun t => t.completed == false))) ∧
    (get_tasks st none none none none).tasks = sortDesc st.tasks := by
  refine ⟨rfl, ?_, rfl⟩
  intro h
  have hb : (pyLower s == "true") = false := beq_eq_false_iff_ne.2 h
  show sortDesc (st.tasks.filter (fun t => t.completed == (pyLower s == "true"))) = _
  rw [hb]

/-- Witness for C9: the value `"1"` is not a spelling of `"true"`, so it
selects the not-completed tasks. -/
theorem get_tasks_completed_param_witness :
    (get_tasks demo3 none none (some "1") none).tasks =
      sortDesc (demo3.tasks.filter (fun t => t.completed == false)) :=
  (get_tasks_completed_param demo3 "1").2.1 (by decide)

/-- C5: updating an existing task with a payload containing only
`completed = true` sets `completed`, refreshes `updated_at` to the
current time, and leaves every other field (`id`, `title`,
`description`, `priority`, `category`, `due_date`, `created_at`)
unchanged; the store row is replaced accordingly. -/
theorem update_task_completed_only (parse : String → Option Nat) (st : TaskStore)
    (now tid : Nat) (t : Task) (h : st.find? tid = some t) :
    update_task parse st now tid (some { completed := some true }) =
      ({ status := 200, success := true,
         task := some { t with completed := true, updated_at := now } },
       { st with tasks := st.tasks.map (fun u =>
           if u.id == tid then { t with completed := true, updated_at := now } else u) }) := by
  simp [update_task, h]

/-- Witness for C5 at a concrete store and task. -/
theorem update_task_completed_only_witness :
    update_task isoParseModel demo3 8 2 (some { completed := some true }) =
      ({ status := 200, success := true,
         task := some { demoTask 2 false with completed := true, updated_at := 8 } },
       { demo3 with tasks := demo3.tasks.map (fun u =>
           if u.id == 2 then { demoTask 2 false with completed := true, updated_at := 8 }
           else u) }) :=
  update_task_completed_only isoParseModel demo3 8 2 (demoTask 2 false) rfl

/-- C10: updating an existing task with a payload containing only a
`title` string succeeds for every string, including the empty string,
and stores that string as the title — title non-emptiness is checked
only by Create. -/
theorem update_task_title_any (parse : String → Option Nat) (st : TaskStore)
    (now tid : Nat) (t : Task) (s : String) (h : st.find? tid = some t) :
    update_task parse st now tid (some { title := some s }) =
      ({ status := 200, success := true,
         task := some { t with title := s, updated_at := now } },
       { st with tasks := st.tasks.map (fun u =>
           if u.id == tid then { t with title := s, updated_at := now } else u) }) := by
  simp [update_task, h]

/-- Witness for C10: an update storing the empty title succeeds. -/
theorem update_task_title_any_witness :
    update_task isoParseModel demo3 8 2 (some { title := some "" }) =
      ({ status := 200, success := true,
         task := some { demoTask 2 false with title := "", updated_at := 8 } },
       { demo3 with tasks := demo3.tasks.map (fun u =>
           if u.id == 2 then { demoTask 2 false with title := "", updated_at := 8 }
           else u) }) :=
  update_task_title_any isoParseModel demo3 8 2 (demoTask 2 false) "" rfl

/-- C2 fails as stated: updating an existing task with the unparsable
due date `"not-a-date"` yields status 500, not the claimed 400 (the
`ValueError` is caught by the blanket `except Exception`, unlike in
Create), and the unparsable empty string `""` is falsy, so it clears
the due date and succeeds with 200 instead of failing. -/
theorem update_task_bad_date_counterexample :
    (update_task isoParseModel demo3 7 2
        (some { due_date := some (JStr.str "not-a-date") })).1.status = 500 ∧
    (update_task isoParseModel demo3 7 2
        (some { due_date := some (JStr.str "not-a-date") })).1.status ≠ 400 ∧
    isoParseModel (pyReplaceZ "not-a-date") = none ∧
    (update_task isoParseModel demo3 7 2
        (some { due_date := some (JStr.str "") })).1.status = 200 ∧
    (update_task isoParseModel demo3 7 2
        (some { due_date := some (JStr.str "") })).1.task =
      some { demoTask 2 false with due_date := none, updated_at := 7 } ∧
    isoParseModel (pyReplaceZ "") = none := by
  decide

/-- C2 as amended: for every existing task id, an update whose
`due_date` field is a non-empty string that does not parse (after
replacing `Z` with `+00:00`) fails — surfaced as an Internal error
(status 500) rather than the claimed Validation 400 — and the stored
task is unchanged (the transaction is rolled back). -/
theorem update_task_bad_date (parse : String → Option Nat) (st : TaskStore)
    (now tid : Nat) (t : Task) (body : UpdateBody) (s : String)
    (h : st.find? tid = some t) (hdd : body.due_date = some (JStr.str s))
    (hs : s ≠ "") (hp : parse (pyReplaceZ s) = none) :
    update_task parse st now tid (some body) =
      ({ status := 500, success := false,
         error := some "ValueError: Invalid isoformat string" }, st) := by
  simp [update_task, h, hdd, JStr.truthy, JStr.getStr, bne_iff_ne, hs, hp]

/-- Witness for the amended C2 at a concrete store and date string. -/
theorem update_task_bad_date_witness :
    update_task isoParseModel demo3 7 2
        (some { due_date := some (JStr.str "not-a-date") }) =
      ({ status := 500, success := false,
         error := some "ValueError: Invalid isoformat string" }, demo3) :=
  update_task_bad_date isoParseModel demo3 7 2 (demoTask 2 false)
    { due_date := some (JStr.str "not-a-date") } "not-a-date" rfl rfl
    (by decide) (by decide)

/-- C1: deleting an id that is not in the store leaves the store (and so
the task count) unchanged, but returns status 500, not the claimed 404:
the `NotFound` raised by `get_or_404` is caught by the blanket
`except Exception` of the handler and surfaced as an internal error. -/
theorem delete_task_absent_eval :
    delete_task { tasks := [], nextId := 1 } 1 =
      ({ status := 500, success := false, error := some "404 Not Found" },
       { tasks := [], nextId := 1 }) ∧
    delete_task demo3 99 =
      ({ status := 500, success := false, error := some "404 Not Found" }, demo3) ∧
    (delete_task demo3 99).2.tasks.length = demo3.tasks.length := by
  decide

/-- C3: creating a category whose `name` equals the name of an
already-stored category fails — the commit violates the UNIQUE
constraint on `name`, the `IntegrityError` is rolled back and surfaced
as a failure envelope — and the store is unchanged: no duplicate row is
created. -/
theorem create_category_duplicate (st : CategoryStore) (now : Nat)
    (body : CatBody) (n : String) (hn : body.name = some (JStr.str n))
    (hne : n ≠ "") (hdup : ∃ c ∈ st.cats, c.name = n) :
    create_category st now (some body) =
      ({ status := 500, success := false,
         error := some "UNIQUE constraint failed: category.name" }, st) := by
  obtain ⟨c, hc, hcn⟩ := hdup
  have hany : st.cats.any (fun d => d.name == n) = true :=
    List.any_eq_true.2 ⟨c, hc, by simp [hcn]⟩
  simp [create_category, hn, JStr.truthy, JStr.getStr, bne_iff_ne, hne, hany]

/-- A store already holding a category named `"Work"` (as the startup
seed produces). -/
def seedWork : CategoryStore :=
  { cats := [{ id := 1, name := "Work", color := some "#3B82F6", created_at := 0 }],
    nextId := 2 }

/-- Witness for C3: creating `"Work"` over a store containing `"Work"`. -/
theorem create_category_duplicate_witness :
    create_category seedWork 5 (some { name := some (JStr.str "Work") }) =
      ({ status := 500, success := false,
         error := some "UNIQUE constraint failed: category.name" }, seedWork) :=
  create_category_duplicate seedWork 5 { name := some (JStr.str "Work") } "Work"
    rfl (by decide)
    ⟨{ id := 1, name := "Work", color := some "#3B82F6", created_at := 0 },
     by decide, rfl⟩

/-- C6: for every store, Stats reports total = number of tasks,
completed = number of completed tasks (never exceeding the total),
pending = total − completed, and completion rate =
completed/total×100 rounded to 2 decimal places, with rate 0 (and no
division) when the total is 0; on 3 tasks with 1 completed it reports
total=3, completed=1, pending=2, rate=33.33. -/
theorem stats_correct :
    (∀ st : TaskStore,
      stats st =
        { total_tasks := st.tasks.length
          completed_tasks := (st.tasks.filter (fun t => t.completed)).length
          pending_tasks :=
            st.tasks.length - (st.tasks.filter (fun t => t.completed)).length
          completion_rate :=
            if st.tasks.length = 0 then 0
            else pyRound2
              (((st.tasks.filter (fun t => t.completed)).length : ℚ) /
                (st.tasks.length : ℚ) * 100) } ∧
      (st.tasks.filter (fun t => t.completed)).length ≤ st.tasks.length) ∧
    stats { tasks := [], nextId := 1 } =
      { total_tasks := 0, completed_tasks := 0, pending_tasks := 0,
        completion_rate := 0 } ∧
    stats demo3 =
      { total_tasks := 3, completed_tasks := 1, pending_tasks := 2,
        completion_rate := 3333/100 } := by
  refine ⟨fun st => ⟨?_, List.length_filter_le _ _⟩, ?_, ?_⟩
  · cases hts : st.tasks with
    | nil => simp [stats, hts, pyRound2_zero]
    | cons a l => simp [stats, hts]
  · simp [stats, pyRound2_zero]
  · norm_num [stats, demo3, demoTask, pyRound2, pyRoundHalfEven, StatsResp.mk.injEq]

end TaskManager
